import Mathlib

/-!
Verification development for the CourierLift backend.

The definitions below are a shallow embedding of the relevant source
modules:

* `src/backend/orders.py`       — geocode stub, mounted quote path
                                  (`compute_quote`), order status route
                                  (`update_order_status`);
* `src/backend/quote_engine.py` — the §4.2 pricing engine
                                  (`estimate_quote`), present in the
                                  source but not mounted by `main.py`;
* `src/backend/tracking.py`     — per-order tracking rooms;
* `src/backend/models.py` / `schemas.py` — data model.

Python floats are modelled by `ℝ` (pricing arithmetic, which uses
`sqrt`, `sin`, `cos`, `atan2` and a fractional power) and by `ℚ` where
the code only ever stores values (geocode output, order rows), keeping
those parts executable.  `round(x, 2)` is modelled as round-half-up,
one of the two conventions the spec (§4.2, final paragraph) allows an
implementation to pick; no statement below depends on behaviour at an
exact half-cent tie.
-/

/-! ## Python-style numeric helpers -/

/-- Python `round(x, 2)`: round to 2 decimal places.  Modelled with
Mathlib's `round` (half-up); the spec allows either half-up or
half-even. -/
noncomputable def rnd2 (x : ℝ) : ℝ := (round (x * 100) : ℤ) / 100

/-- Python `int(x)`: truncation toward zero. -/
noncomputable def pyInt (x : ℝ) : ℤ := if x < 0 then ⌈x⌉ else ⌊x⌋

/-- Python `x or d` on floats: `d` when `x == 0.0`, else `x`. -/
noncomputable def pyOr (x d : ℝ) : ℝ := if x = 0 then d else x

/-- Python `n or d` on ints: `d` when `n == 0`, else `n`. -/
def pyOrZ (n d : ℤ) : ℤ := if n = 0 then d else n

/-- Python `dict.get(key, default)` over an association list. -/
def dict_get {α : Type*} : List (String × α) → String → α → α
  | [], _, d => d
  | (k, v) :: rest, key, d => if key = k then v else dict_get rest key d

/-! ## Order data model (src/backend/models.py) -/

/-- `models.OrderStatus`. -/
inductive OrderStatus where
  | pending | assigned | picked_up | delivered | canceled
deriving DecidableEq, Repr

/-- `models.UserRole`. -/
inductive UserRole where
  | customer | courier | merchant | admin
deriving DecidableEq, Repr

/-- A row of the `orders` table (`models.Order`).  Float columns are
modelled as `ℚ` (every IEEE double is rational), timestamps as `ℤ`. -/
structure OrderRow where
  id : ℕ
  user_id : ℕ
  pickup_lat : ℚ
  pickup_lng : ℚ
  dropoff_lat : ℚ
  dropoff_lng : ℚ
  vehicle : String
  item_type : String
  quantity : ℤ
  weight_lb : ℚ
  length_in : ℚ
  width_in : ℚ
  height_in : ℚ
  price : ℚ
  eta_min : ℤ
  status : OrderStatus
  created_at : ℤ
deriving DecidableEq, Repr

/-! ## Order state machine (src/backend/orders.py, lines 219–264) -/

/-- `orders.ALLOWED_CHAIN` (lines 219–225). -/
def ALLOWED_CHAIN : OrderStatus → List OrderStatus
  | .pending => [.assigned, .canceled]
  | .assigned => [.picked_up, .canceled]
  | .picked_up => [.delivered]
  | .delivered => []
  | .canceled => []

/-- `orders.can_transition` (lines 228–229). -/
def can_transition (current nxt : OrderStatus) : Bool :=
  nxt ∈ ALLOWED_CHAIN current

/-- `OrderStatus(payload.status)` (line 244): parse the five enum value
strings, anything else raises (→ 422). -/
def parse_status (s : String) : Option OrderStatus :=
  if s = "pending" then some .pending
  else if s = "assigned" then some .assigned
  else if s = "picked_up" then some .picked_up
  else if s = "delivered" then some .delivered
  else if s = "canceled" then some .canceled
  else none

/-- Error taxonomy of the status route (HTTP 404 / 422 / 403 / 409). -/
inductive Err where
  | notFound | invalidInput | forbidden | conflict
deriving DecidableEq, Repr

/-- `db.query(Order).filter(Order.id == order_id).first()` (line 239). -/
def find_order (db : List OrderRow) (oid : ℕ) : Option OrderRow :=
  db.find? (fun o => o.id = oid)

/-- `orders.update_order_status` (lines 232–264), as a pure function of
the database state.  On success it returns the committed database (the
matched row's `status` replaced) together with the refreshed row. -/
def update_order_status (db : List OrderRow) (oid : ℕ) (s : String)
    (actor_id : ℕ) (role : UserRole) :
    Except Err (List OrderRow × OrderRow) :=
  match find_order db oid with
  | none => .error .notFound
  | some order =>
    match parse_status s with
    | none => .error .invalidInput
    | some new_status =>
      match role with
      | .customer =>
        if order.user_id ≠ actor_id then .error .forbidden
        else if new_status ≠ .canceled then .error .forbidden
        else if ¬(order.status = .pending ∨ order.status = .assigned) then
          .error .conflict
        else
          .ok (db.map (fun o => if o.id = oid then { o with status := new_status } else o),
               { order with status := new_status })
      | .courier | .admin =>
        if new_status ≠ .canceled ∧ ¬can_transition order.status new_status then
          .error .conflict
        else
          .ok (db.map (fun o => if o.id = oid then { o with status := new_status } else o),
               { order with status := new_status })
      | .merchant => .error .forbidden

/-- Whether the route committed an update (HTTP 200). -/
def is_committed (r : Except Err (List OrderRow × OrderRow)) : Bool :=
  match r with
  | .ok _ => true
  | .error _ => false

/-- Observable outcome of a status-update attempt. -/
inductive Outcome where
  | ok (newStatus : OrderStatus)
  | err (e : Err)
deriving DecidableEq, Repr

/-- Outcome of the route: the new status on success, the error else. -/
def outcome_of (r : Except Err (List OrderRow × OrderRow)) : Outcome :=
  match r with
  | .ok (_, o) => .ok o.status
  | .error e => .err e

/-- The §4.3 contract, written from the spec's words: NotFound if the
order id does not exist; InvalidInput if the requested status is not an
enum value; a customer is Forbidden unless the order is their own and
the target is canceled, and gets Conflict when the current status is
not pending or assigned; courier/admin get Conflict exactly when the
table rejects the transition, with canceled always permitted; merchant
(and any other role) is Forbidden. -/
def spec_outcome (found : Option OrderRow) (target : Option OrderStatus)
    (role : UserRole) (actor_id : ℕ) : Outcome :=
  match found with
  | none => .err .notFound
  | some o =>
    match target with
    | none => .err .invalidInput
    | some t =>
      match role with
      | .customer =>
        if ¬(o.user_id = actor_id ∧ t = .canceled) then .err .forbidden
        else if ¬(o.status = .pending ∨ o.status = .assigned) then .err .conflict
        else .ok t
      | .courier | .admin =>
        if can_transition o.status t ∨ t = .canceled then .ok t
        else .err .conflict
      | .merchant => .err .forbidden

/-- A sample order row with the given id, owner and status; the
remaining columns take fixed neutral values. -/
def mkOrder (oid uid : ℕ) (st : OrderStatus) : OrderRow :=
  { id := oid, user_id := uid,
    pickup_lat := 40, pickup_lng := -75, dropoff_lat := 41, dropoff_lng := -74,
    vehicle := "car", item_type := "standard", quantity := 1,
    weight_lb := 0, length_in := 12, width_in := 8, height_in := 6,
    price := 9, eta_min := 10, status := st, created_at := 1700000000 }

/-! ## Geocode stub (src/backend/orders.py, lines 24–28) -/

/-- Characters stripped by Python's `str.strip()` (the Unicode
whitespace set Python uses: ASCII 9–13, 28–31, space, NEL, NBSP, and
the Unicode space separators). -/
def py_is_space (c : Char) : Bool :=
  let n := c.toNat
  (9 ≤ n ∧ n ≤ 13) || (28 ≤ n ∧ n ≤ 32) || n = 133 || n = 160 ||
  n = 5760 || (8192 ≤ n ∧ n ≤ 8202) || n = 8232 || n = 8233 ||
  n = 8239 || n = 8287 || n = 12288

/-- Python `not addr or not addr.strip()`: true iff the string is empty
or consists only of whitespace. -/
def py_strip_empty (s : String) : Bool :=
  s.data.all py_is_space

/-- `sum(ord(c) for c in addr)` (line 27). -/
def ord_total (s : String) : ℕ :=
  (s.data.map Char.toNat).sum

/-- `orders.fake_geocode` (lines 24–28). -/
def fake_geocode (addr : String) : Option (ℚ × ℚ) :=
  if py_strip_empty addr then none
  else
    some (30 + ((ord_total addr % 5000 : ℕ) : ℚ) / 100,
          -100 - ((ord_total addr % 5000 : ℕ) : ℚ) / 100)

/-! ## Tracking rooms (src/backend/tracking.py) -/

/-- `ConnectionManager.rooms`: order_id → currently connected handles
(websockets modelled as numeric handles; Python's set iterates in some
order, modelled as a list — the claims below only count deliveries). -/
def RoomState := List (String × List ℕ)

/-- Members of the room for `order_id` (empty when absent). -/
def members_of (rooms : RoomState) (oid : String) : List ℕ :=
  match List.find? (fun r => r.1 = oid) rooms with
  | some r => r.2
  | none => []

/-- One delivered message: recipient handle and the payload's tag. -/
def Delivery := ℕ × String

/-- `ConnectionManager.broadcast` (lines 34–40): sends the payload to
every current member of the room — there is no exclusion parameter. -/
def broadcast_deliveries (rooms : RoomState) (oid : String) (tag : String) :
    List Delivery :=
  (members_of rooms oid).map (fun h => (h, tag))

/-- Deliveries performed by `ws_track` for one inbound message from
`sender` (lines 70–83): `send_personal` of the `"echo"` payload to the
sender, then `broadcast` of the `"broadcast"` payload to the room. -/
def inbound_deliveries (rooms : RoomState) (oid : String) (sender : ℕ) :
    List Delivery :=
  (sender, "echo") :: broadcast_deliveries rooms oid "broadcast"

/-- Number of messages `h` receives among `ds`. -/
def count_to (h : ℕ) (ds : List Delivery) : ℕ :=
  (ds.filter (fun d => d.1 = h)).length

/-! ## Mounted quote path (src/backend/orders.py, lines 31–82)

`POST /quote` is served by `quote_price`, which calls `compute_quote`
on a `schemas.QuoteRequest`.  A `QuoteRequest` (schemas.py lines
26–39) carries only numeric coordinates and has no `pickup_addr`
attribute, so in `compute_quote` the `hasattr(data, "pickup_addr")`
branch never fires and the points are taken directly from
`pickup_lat/lng`, `dropoff_lat/lng`; geocoding and the 400 error are
unreachable on this route. -/

/-- `schemas.QuoteRequest` (all fields required or defaulted floats). -/
structure QuoteRequest where
  pickup_lat : ℝ
  pickup_lng : ℝ
  dropoff_lat : ℝ
  dropoff_lng : ℝ
  vehicle : String
  item_type : String
  quantity : ℤ := 1
  weight_lb : ℝ := 0
  length_in : ℝ := 12
  width_in : ℝ := 8
  height_in : ℝ := 6
  weather : String := "clear"
  traffic : String := "med"

/-- `schemas.QuoteResponse`. -/
structure QuoteResponse where
  price : ℝ
  eta : ℤ
  miles : ℝ
  tier : String

/-- `orders.haversine_like` (lines 31–33): euclidean distance in
degrees × 69, floored at 0.5 miles. -/
noncomputable def haversine_like (pu dopt : ℝ × ℝ) : ℝ :=
  max 0.5 (Real.sqrt ((pu.1 - dopt.1) ^ 2 + (pu.2 - dopt.2) ^ 2) * 69.0)

/-- `orders.vehicle_multiplier` (lines 36–42). -/
noncomputable def vehicle_multiplier (vehicle : String) : ℝ :=
  dict_get [("bike", 1.0), ("car", 1.2), ("van", 1.5), ("truck", 2.0)] vehicle 1.2

/-- Python substring test `k in t` on lowered character lists. -/
def contains_sub (needle hay : List Char) : Bool :=
  decide (needle <:+: hay)

/-- `orders.item_tier` (lines 45–53): keyword matching on the lowered
item-type string.  (`Char.toLower` agrees with Python's `str.lower`
on ASCII, which covers every keyword tested.) -/
def item_tier (item_type : String) : String :=
  let t := item_type.data.map Char.toLower
  if contains_sub "fragile".data t || contains_sub "glass".data t ||
     contains_sub "art".data t then "fragile"
  else if contains_sub "food".data t || contains_sub "meal".data t ||
     contains_sub "grocery".data t then "perishable"
  else if contains_sub "electronics".data t || contains_sub "laptop".data t ||
     contains_sub "tv".data t then "electronics"
  else "standard"

/-- `qty_factor = max(1.0, (data.quantity or 1) * 0.9)` (line 68). -/
noncomputable def qty_factor (quantity : ℤ) : ℝ :=
  max 1.0 ((pyOrZ quantity 1 : ℝ) * 0.9)

/-- `weight_factor = 1.0 + min(0.8, (data.weight_lb or 0.0) / 100.0)`
(line 69; `w or 0.0` equals `w` as a value). -/
noncomputable def weight_factor (weight_lb : ℝ) : ℝ :=
  1.0 + min 0.8 (weight_lb / 100.0)

/-- `size_factor` of `compute_quote` (lines 70–73). -/
noncomputable def cq_size_factor (length_in width_in height_in : ℝ) : ℝ :=
  1.0 + min 0.6 ((pyOr length_in 12 * pyOr width_in 8 * pyOr height_in 6)
    / 1728.0 * 0.2)

/-- Price of `compute_quote` (lines 66–75) given the distance. -/
noncomputable def cq_price (miles : ℝ) (q : QuoteRequest) : ℝ :=
  rnd2 ((3.5 + miles * (1.75 * vehicle_multiplier q.vehicle))
    * qty_factor q.quantity * weight_factor q.weight_lb
    * cq_size_factor q.length_in q.width_in q.height_in)

/-- `compute_quote` from the already-computed distance (lines 66–77). -/
noncomputable def compute_from_miles (miles : ℝ) (q : QuoteRequest) :
    QuoteResponse :=
  { price := cq_price miles q,
    eta := max 10 (pyInt (miles * 3)),
    miles := rnd2 miles,
    tier := item_tier q.item_type }

/-- `orders.compute_quote` (lines 56–77) on a `schemas.QuoteRequest`:
points come from the numeric fields, distance from `haversine_like`. -/
noncomputable def compute_quote (q : QuoteRequest) : QuoteResponse :=
  compute_from_miles
    (haversine_like (q.pickup_lat, q.pickup_lng) (q.dropoff_lat, q.dropoff_lng)) q

/-! ## §4.2 engine (src/backend/quote_engine.py) — present in the source
but not mounted by `main.py`. -/

/-- One entry of `quote_engine.VEHICLE`. -/
structure VehicleEntry where
  speed : ℝ
  mult : ℝ
  env : ℝ

/-- `quote_engine.VEHICLE` (lines 6–21). -/
noncomputable def VEHICLE : List (String × VehicleEntry) :=
  [("bike", ⟨12, 0.90, -0.35⟩), ("cargo_bike", ⟨11, 1.00, -0.30⟩),
   ("e_bike", ⟨14, 0.95, -0.30⟩), ("scooter", ⟨18, 0.95, 0.00⟩),
   ("motorcycle", ⟨28, 1.05, 0.00⟩), ("car", ⟨24, 1.00, 0.00⟩),
   ("ev_compact", ⟨24, 0.98, -0.10⟩), ("ev_sedan", ⟨24, 1.02, -0.10⟩),
   ("suv", ⟨22, 1.15, 0.00⟩), ("ev_suv", ⟨22, 1.12, -0.08⟩),
   ("van", ⟨21, 1.22, 0.00⟩), ("ev_van", ⟨21, 1.20, -0.06⟩),
   ("truck_light", ⟨20, 1.35, 0.00⟩), ("truck_box", ⟨19, 1.50, 0.00⟩)]

/-- `VEHICLE.get(vehicle, VEHICLE["car"])` (line 50). -/
noncomputable def vehicle_entry (v : String) : VehicleEntry :=
  dict_get VEHICLE v ⟨24, 1.00, 0.00⟩

/-- `ITEM_MULT.get(item_type, 1.0)` (lines 23, 54). -/
noncomputable def item_mult (t : String) : ℝ :=
  dict_get [("general", 1.0), ("electronics", 1.2), ("fragile", 1.25),
    ("perishable", 1.15), ("oversize", 1.4)] t 1.0

/-- `WEATHER.get(weather, 1.0)` (lines 24, 57). -/
noncomputable def weather_mult (w : String) : ℝ :=
  dict_get [("clear", 1.0), ("rain", 1.08), ("snow", 1.18), ("extreme", 1.35)] w 1.0

/-- `TRAFFIC.get(traffic, 1.15)` (lines 25, 57). -/
noncomputable def traffic_mult (t : String) : ℝ :=
  dict_get [("low", 1.0), ("med", 1.15), ("high", 1.35)] t 1.15

/-- `SURGE` (line 26). -/
noncomputable def SURGE : ℝ := 1.075

/-- `quote_engine._clamp` (line 28). -/
noncomputable def qclamp (n a b : ℝ) : ℝ := max a (min b n)

/-- `quote_engine._size_factor` (lines 36–39); `12*8*6 = 576`. -/
noncomputable def qe_size_factor (L W H : ℝ) : ℝ :=
  qclamp ((max 1.0 (L * W * H) / 576) ^ (0.35 : ℝ)) 0.75 2.0

/-- `quote_engine._weight_fee` (line 41). -/
noncomputable def weight_fee (lb : ℝ) : ℝ :=
  max 0.0 ((max 0.0 lb - 5.0) * 0.15)

/-- C's `atan2(y, x)`, as used by `math.atan2`. -/
noncomputable def atan2 (y x : ℝ) : ℝ :=
  if 0 < x then Real.arctan (y / x)
  else if x = 0 then
    (if 0 < y then Real.pi / 2 else if y < 0 then -(Real.pi / 2) else 0)
  else
    (if 0 ≤ y then Real.arctan (y / x) + Real.pi
     else Real.arctan (y / x) - Real.pi)

/-- `quote_engine._haversine_km` (lines 30–34), Earth radius 6371 km.
(`Real.sqrt` of a negative argument is 0 where `math.sqrt` would raise;
the geometrically meaningful inputs keep the radicand in `[0, 1]`.) -/
noncomputable def haversine_km (lat1 lon1 lat2 lon2 : ℝ) : ℝ :=
  let toRad := Real.pi / 180.0
  let dlat := (lat2 - lat1) * toRad
  let dlon := (lon2 - lon1) * toRad
  let a := Real.sin (dlat / 2) ^ 2 +
    Real.cos (lat1 * toRad) * Real.cos (lat2 * toRad) * Real.sin (dlon / 2) ^ 2
  2 * 6371.0 * atan2 (Real.sqrt a) (Real.sqrt (1 - a))

/-- Tier expression of `estimate_quote` (line 65). -/
noncomputable def tier_of (price : ℝ) : String :=
  if price < 12 then "Saver"
  else if price < 30 then "Standard"
  else if price < 80 then "Priority"
  else "Pro Load"

/-- Combined weather × traffic multiplier `wx` (line 57). -/
noncomputable def wx_mult (weather traffic : String) : ℝ :=
  weather_mult weather * traffic_mult traffic

/-- Price of `estimate_quote` (lines 50–60) from the rounded miles. -/
noncomputable def est_price (miles : ℝ) (vehicle item_type weather traffic : String)
    (weight_lb L W H : ℝ) : ℝ :=
  qclamp (rnd2 ((3.5 + miles * (1.45 * (vehicle_entry vehicle).mult))
      * qe_size_factor L W H * item_mult item_type
      * wx_mult weather traffic * SURGE
    + weight_fee weight_lb + 1.25 + (vehicle_entry vehicle).env)) 4.5 999.0

/-- ETA of `estimate_quote` (lines 62–63) from the rounded miles;
`(miles or 0)` is Python's falsy-default, a value-level identity. -/
noncomputable def est_eta (miles : ℝ) (vehicle weather traffic : String) : ℤ :=
  max 5 ⌈(pyOr miles 0) / max 3 ((vehicle_entry vehicle).speed
    / wx_mult weather traffic * 0.9) * 60 + 5⌉

/-- `estimate_quote` (lines 43–66) from the already-rounded miles. -/
noncomputable def estimate_from_miles (miles : ℝ)
    (vehicle item_type weather traffic : String) (weight_lb L W H : ℝ) :
    QuoteResponse :=
  { price := est_price miles vehicle item_type weather traffic weight_lb L W H,
    eta := est_eta miles vehicle weather traffic,
    miles := miles,
    tier := tier_of (est_price miles vehicle item_type weather traffic weight_lb L W H) }

/-- `quote_engine.estimate_quote` (lines 43–66): haversine km → miles
× 0.621371 × 1.15, rounded to 2 decimals, then the pricing pipeline.
(`quantity` is accepted and, as in the source, unused.) -/
noncomputable def estimate_quote (pickup dropoff : ℝ × ℝ)
    (vehicle item_type : String) (quantity : ℤ) (weight_lb L W H : ℝ)
    (weather traffic : String) : QuoteResponse :=
  let _ := quantity
  estimate_from_miles
    (rnd2 (haversine_km pickup.1 pickup.2 dropoff.1 dropoff.2 * 0.621371 * 1.15))
    vehicle item_type weather traffic weight_lb L W H

/-! ## Sample inputs and spec-side definitions -/

/-- A quote request with pickup = dropoff (distance 0). -/
noncomputable def q0 : QuoteRequest :=
  { pickup_lat := 40, pickup_lng := -75, dropoff_lat := 40, dropoff_lng := -75,
    vehicle := "car", item_type := "x", quantity := 1, weight_lb := 0,
    length_in := 12, width_in := 8, height_in := 6, weather := "clear", traffic := "med" }
/-- A quote request 100 degrees of longitude apart (6900 route miles). -/
noncomputable def q1 : QuoteRequest :=
  { pickup_lat := 0, pickup_lng := 0, dropoff_lat := 0, dropoff_lng := 100,
    vehicle := "car", item_type := "x", quantity := 1, weight_lb := 0,
    length_in := 12, width_in := 8, height_in := 6, weather := "clear", traffic := "med" }
/-- Tier thresholds as the claim words them: half-open intervals,
inclusive below, exclusive above. -/
noncomputable def tier_spec (p : ℝ) : String :=
  if p < 12 then "Saver"
  else if 12 ≤ p ∧ p < 30 then "Standard"
  else if 30 ≤ p ∧ p < 80 then "Priority"
  else "Pro Load"
/-- The amended claim's description of the mounted quote path, written
out flat: distance is the euclidean degree distance × 69 floored at
half a mile; price is `round2((3.5 + 1.75·vmult·d) · qtyF · wtF ·
sizeF)` with the bike/van/truck table defaulting to 1.2; eta is
`max(10, ⌊3·d⌋)`; the reported miles are the distance rounded to 2
decimals, and the tier comes from the item-type keywords. -/
noncomputable def quote_route_spec (q : QuoteRequest) : QuoteResponse :=
  { price := rnd2 ((3.5 + 1.75 * (if q.vehicle = "bike" then 1.0
        else if q.vehicle = "van" then 1.5
        else if q.vehicle = "truck" then 2.0 else 1.2)
        * max 0.5 (Real.sqrt ((q.pickup_lat - q.dropoff_lat) ^ 2 +
            (q.pickup_lng - q.dropoff_lng) ^ 2) * 69.0))
      * max 1.0 (0.9 * (if q.quantity = 0 then 1 else (q.quantity : ℝ)))
      * (1.0 + min 0.8 (q.weight_lb / 100))
      * (1.0 + min 0.6 ((if q.length_in = 0 then 12 else q.length_in)
          * (if q.width_in = 0 then 8 else q.width_in)
          * (if q.height_in = 0 then 6 else q.height_in) / 8640))),
    eta := max 10 ⌊3 * max 0.5 (Real.sqrt ((q.pickup_lat - q.dropoff_lat) ^ 2 +
        (q.pickup_lng - q.dropoff_lng) ^ 2) * 69.0)⌋,
    miles := rnd2 (max 0.5 (Real.sqrt ((q.pickup_lat - q.dropoff_lat) ^ 2 +
        (q.pickup_lng - q.dropoff_lng) ^ 2) * 69.0)),
    tier := item_tier q.item_type }

/-! ## Helper lemmas -/

theorem dict_get_prop {α : Type*} (P : α → Prop) (l : List (String × α)) (key : String)
    (d : α) (hl : ∀ p ∈ l, P p.2) (hd : P d) : P (dict_get l key d) := by
  induction l with
  | nil => exact hd
  | cons p rest ih =>
    obtain ⟨k, v⟩ := p
    unfold dict_get
    split_ifs
    · exact hl (k, v) (List.mem_cons_self _ _)
    · exact ih fun q hq => hl q (List.mem_cons_of_mem _ hq)
theorem rnd2_eq_of (x : ℝ) (n : ℤ) (h₁ : (n : ℝ) ≤ x * 100 + 1 / 2)
    (h₂ : x * 100 + 1 / 2 < n + 1) : rnd2 x = n / 100 := by
  unfold rnd2
  rw [round_eq]
  have h : ⌊x * 100 + 1 / 2⌋ = n := Int.floor_eq_iff.mpr ⟨h₁, by linarith⟩
  rw [h]
theorem rnd2_mono {x y : ℝ} (h : x ≤ y) : rnd2 x ≤ rnd2 y := by
  unfold rnd2
  have h2 : round (x * 100) ≤ round (y * 100) := by
    rw [round_eq, round_eq]; exact Int.floor_mono (by linarith)
  have h3 : ((round (x * 100) : ℤ) : ℝ) ≤ ((round (y * 100) : ℤ) : ℝ) := by
    exact_mod_cast h2
  linarith
theorem rnd2_zero : rnd2 0 = 0 := by
  rw [rnd2_eq_of 0 0 (by norm_num) (by norm_num)]; norm_num
theorem rnd2_half : rnd2 0.5 = 0.5 := by
  rw [rnd2_eq_of 0.5 50 (by norm_num) (by norm_num)]; norm_num
theorem rnd2_thousand : rnd2 1000 = 1000 := by
  rw [rnd2_eq_of 1000 100000 (by norm_num) (by norm_num)]; norm_num
theorem qclamp_mono {a b lo hi : ℝ} (h : a ≤ b) : qclamp a lo hi ≤ qclamp b lo hi :=
  max_le_max le_rfl (min_le_min le_rfl h)
theorem atan2_zero_one : atan2 0 1 = 0 := by
  unfold atan2
  rw [if_pos one_pos]
  norm_num [Real.arctan_zero]
theorem haversine_km_self (lat lon : ℝ) : haversine_km lat lon lat lon = 0 := by
  unfold haversine_km
  simp [Real.sin_zero, Real.sqrt_zero, Real.sqrt_one, atan2_zero_one]
theorem pyOr_zero (x : ℝ) : pyOr x 0 = x := by
  unfold pyOr; split_ifs with h <;> simp [h]
theorem vehicle_mult_nonneg (v : String) : 0 ≤ (vehicle_entry v).mult := by
  unfold vehicle_entry
  refine dict_get_prop (fun e => 0 ≤ e.mult) VEHICLE v ⟨24, 1.00, 0.00⟩ ?_ (by norm_num)
  intro p hp
  fin_cases hp <;> norm_num
theorem vehicle_speed_pos (v : String) : 0 < (vehicle_entry v).speed := by
  unfold vehicle_entry
  refine dict_get_prop (fun e => 0 < e.speed) VEHICLE v ⟨24, 1.00, 0.00⟩ ?_ (by norm_num)
  intro p hp
  fin_cases hp <;> norm_num
theorem item_mult_nonneg (t : String) : 0 ≤ item_mult t := by
  unfold item_mult
  refine dict_get_prop (fun x => 0 ≤ x) _ t 1.0 ?_ (by norm_num)
  intro p hp
  fin_cases hp <;> norm_num
theorem weather_mult_pos (w : String) : 0 < weather_mult w := by
  unfold weather_mult
  refine dict_get_prop (fun x => 0 < x) _ w 1.0 ?_ (by norm_num)
  intro p hp
  fin_cases hp <;> norm_num
theorem traffic_mult_pos (t : String) : 0 < traffic_mult t := by
  unfold traffic_mult
  refine dict_get_prop (fun x => 0 < x) _ t 1.15 ?_ (by norm_num)
  intro p hp
  fin_cases hp <;> norm_num
theorem wx_mult_pos (w t : String) : 0 < wx_mult w t :=
  mul_pos (weather_mult_pos w) (traffic_mult_pos t)
theorem qe_size_factor_nonneg (L W H : ℝ) : 0 ≤ qe_size_factor L W H :=
  le_trans (by norm_num) (le_max_left 0.75 _)
theorem qe_size_factor_default : qe_size_factor 12 8 6 = 1 := by
  unfold qe_size_factor qclamp
  have h1 : max 1.0 (12 * 8 * 6 : ℝ) = 576 := by norm_num
  rw [h1]
  norm_num [Real.one_rpow]
theorem weight_fee_zero : weight_fee 0 = 0 := by
  unfold weight_fee; norm_num
theorem vehicle_entry_car : vehicle_entry "car" = ⟨24, 1.00, 0.00⟩ := by rfl
theorem item_mult_x : item_mult "x" = 1.0 := by rfl
theorem item_mult_general : item_mult "general" = 1.0 := by rfl
theorem weather_mult_clear : weather_mult "clear" = 1.0 := by rfl
theorem traffic_mult_med : traffic_mult "med" = 1.15 := by rfl
theorem vehicle_multiplier_car : vehicle_multiplier "car" = 1.2 := by rfl
theorem qclamp_of_ge {r : ℝ} (h : 999.0 ≤ r) : qclamp r 4.5 999.0 = 999.0 := by
  unfold qclamp
  rw [min_eq_left h]
  exact max_eq_right (by norm_num)
theorem wx_clear_med : wx_mult "clear" "med" = 1.15 := by
  unfold wx_mult
  rw [weather_mult_clear, traffic_mult_med]
  norm_num
theorem est_price_car_eval (m : ℝ) :
    est_price m "car" "general" "clear" "med" 0 12 8 6 =
      qclamp (rnd2 ((3.5 + m * 1.45) * 1.15 * 1.075 + 1.25)) 4.5 999.0 := by
  unfold est_price
  rw [vehicle_entry_car, item_mult_general, qe_size_factor_default,
    weight_fee_zero, wx_clear_med]
  show qclamp (rnd2 _) _ _ = _
  congr 1
  congr 1
  show _ * _ * _ * _ * SURGE + _ + _ + _ = _
  unfold SURGE
  norm_num
theorem haversine_like_zero : haversine_like (40, -75) (40, -75) = 0.5 := by
  unfold haversine_like
  norm_num
theorem haversine_like_q1 : haversine_like (0, 0) (0, 100) = 6900 := by
  unfold haversine_like
  have h : ((0 : ℝ) - 0) ^ 2 + (0 - 100) ^ 2 = 100 ^ 2 := by norm_num
  rw [h, Real.sqrt_sq (by norm_num : (0 : ℝ) ≤ 100)]
  norm_num
theorem qty_factor_one : qty_factor 1 = 1 := by
  unfold qty_factor pyOrZ
  norm_num
theorem weight_factor_zero : weight_factor 0 = 1 := by
  unfold weight_factor
  rw [show min 0.8 ((0 : ℝ) / 100.0) = 0 by norm_num]
  norm_num
theorem cq_size_factor_default : cq_size_factor 12 8 6 = 16 / 15 := by
  unfold cq_size_factor pyOr
  norm_num
theorem compute_quote_q0_price : (compute_quote q0).price = 485 / 100 := by
  have h : (compute_quote q0).price = cq_price (haversine_like (40, -75) (40, -75)) q0 := rfl
  rw [h, haversine_like_zero]
  show rnd2 ((3.5 + 0.5 * (1.75 * vehicle_multiplier "car")) * qty_factor 1
    * weight_factor 0 * cq_size_factor 12 8 6) = 485 / 100
  rw [vehicle_multiplier_car, qty_factor_one, weight_factor_zero, cq_size_factor_default]
  rw [rnd2_eq_of _ 485 (by norm_num) (by norm_num)]
  norm_num
theorem compute_quote_q0_miles : (compute_quote q0).miles = 0.5 := by
  have h : (compute_quote q0).miles = rnd2 (haversine_like (40, -75) (40, -75)) := rfl
  rw [h, haversine_like_zero, rnd2_half]
theorem compute_quote_q1_price : (compute_quote q1).price = 1545973 / 100 := by
  have h : (compute_quote q1).price = cq_price (haversine_like (0, 0) (0, 100)) q1 := rfl
  rw [h, haversine_like_q1]
  show rnd2 ((3.5 + 6900 * (1.75 * vehicle_multiplier "car")) * qty_factor 1
    * weight_factor 0 * cq_size_factor 12 8 6) = 1545973 / 100
  rw [vehicle_multiplier_car, qty_factor_one, weight_factor_zero, cq_size_factor_default]
  rw [rnd2_eq_of _ 1545973 (by norm_num) (by norm_num)]
  norm_num
theorem estimate_q0_miles :
    (estimate_quote (q0.pickup_lat, q0.pickup_lng) (q0.dropoff_lat, q0.dropoff_lng)
      q0.vehicle q0.item_type q0.quantity q0.weight_lb q0.length_in q0.width_in
      q0.height_in q0.weather q0.traffic).miles = 0 := by
  have h : (estimate_quote (q0.pickup_lat, q0.pickup_lng) (q0.dropoff_lat, q0.dropoff_lng)
      q0.vehicle q0.item_type q0.quantity q0.weight_lb q0.length_in q0.width_in
      q0.height_in q0.weather q0.traffic).miles =
      rnd2 (haversine_km 40 (-75) 40 (-75) * 0.621371 * 1.15) := rfl
  rw [h, haversine_km_self]
  rw [show (0 : ℝ) * 0.621371 * 1.15 = 0 by norm_num, rnd2_zero]
theorem tier_of_eq_tier_spec (p : ℝ) : tier_of p = tier_spec p := by
  unfold tier_of tier_spec
  rcases lt_or_le p 12 with h1 | h1
  · rw [if_pos h1, if_pos h1]
  · rw [if_neg (not_lt.mpr h1), if_neg (not_lt.mpr h1)]
    rcases lt_or_le p 30 with h2 | h2
    · rw [if_pos h2, if_pos (⟨h1, h2⟩ : 12 ≤ p ∧ p < 30)]
    · rw [if_neg (not_lt.mpr h2),
        if_neg (fun hc => absurd hc.2 (not_lt.mpr h2) : ¬(12 ≤ p ∧ p < 30))]
      rcases lt_or_le p 80 with h3 | h3
      · rw [if_pos h3, if_pos (⟨h2, h3⟩ : 30 ≤ p ∧ p < 80)]
      · rw [if_neg (not_lt.mpr h3),
          if_neg (fun hc => absurd hc.2 (not_lt.mpr h3) : ¬(30 ≤ p ∧ p < 80))]
theorem vehicle_multiplier_eq (v : String) :
    vehicle_multiplier v = (if v = "bike" then 1.0 else if v = "van" then 1.5
      else if v = "truck" then 2.0 else 1.2) := by
  simp only [vehicle_multiplier, dict_get]
  by_cases h1 : v = "bike"
  · rw [if_pos h1, if_pos h1]
  · rw [if_neg h1, if_neg h1]
    by_cases h2 : v = "car"
    · have hv : ¬(v = "van") := by rw [h2]; decide
      have ht : ¬(v = "truck") := by rw [h2]; decide
      rw [if_pos h2, if_neg hv, if_neg ht]
    · rw [if_neg h2]
theorem qty_factor_eq (n : ℤ) :
    qty_factor n = max 1.0 (0.9 * (if n = 0 then 1 else (n : ℝ))) := by
  unfold qty_factor pyOrZ
  congr 1
  rw [apply_ite (fun z : ℤ => (z : ℝ))]
  push_cast
  split_ifs <;> ring_nf
theorem weight_factor_eq (w : ℝ) : weight_factor w = 1.0 + min 0.8 (w / 100) := by
  unfold weight_factor
  norm_num
theorem cq_size_factor_eq (L W H : ℝ) :
    cq_size_factor L W H = 1.0 + min 0.6 ((if L = 0 then 12 else L)
      * (if W = 0 then 8 else W) * (if H = 0 then 6 else H) / 8640) := by
  unfold cq_size_factor pyOr
  congr 1
  congr 1
  ring_nf
theorem pyInt_eq_floor {x : ℝ} (h : 0 ≤ x) : pyInt x = ⌊x⌋ := by
  unfold pyInt
  rw [if_neg (not_lt.mpr h)]

/-! ## Claims -/

/-- C1: the claim says POST /quote returns exactly the §4.2 algorithm's
miles/price/eta/tier.  False: the mounted route computes `compute_quote`,
not `quote_engine.estimate_quote`; at pickup = dropoff the route reports
0.5 miles while the §4.2 engine reports 0.0 miles. -/
theorem c1_route_not_engine :
    compute_quote q0 ≠ estimate_quote (q0.pickup_lat, q0.pickup_lng)
      (q0.dropoff_lat, q0.dropoff_lng) q0.vehicle q0.item_type q0.quantity
      q0.weight_lb q0.length_in q0.width_in q0.height_in q0.weather q0.traffic := by
  intro h
  have hm := congrArg QuoteResponse.miles h
  rw [compute_quote_q0_miles, estimate_q0_miles] at hm
  norm_num at hm

/-- C1 (amended): for every quote request, POST /quote returns the
`compute_quote` formula — euclidean degree distance × 69 floored at
half a mile, price `round2((3.5 + 1.75·vmult·d)·qtyF·wtF·sizeF)`,
eta `max(10, ⌊3·d⌋)`, and an item-keyword tier; the §4.2 engine exists
in the source but is not called by any mounted route. -/
theorem c1_route_formula (q : QuoteRequest) : compute_quote q = quote_route_spec q := by
  have hd : haversine_like (q.pickup_lat, q.pickup_lng) (q.dropoff_lat, q.dropoff_lng) =
      max 0.5 (Real.sqrt ((q.pickup_lat - q.dropoff_lat) ^ 2 +
        (q.pickup_lng - q.dropoff_lng) ^ 2) * 69.0) := rfl
  have h05 : (0 : ℝ) ≤ haversine_like (q.pickup_lat, q.pickup_lng)
      (q.dropoff_lat, q.dropoff_lng) := le_trans (by norm_num) (le_max_left _ _)
  show compute_from_miles _ q = _
  unfold compute_from_miles quote_route_spec cq_price
  simp only [QuoteResponse.mk.injEq]
  refine ⟨?_, ?_, by rw [hd], trivial⟩
  · rw [vehicle_multiplier_eq, qty_factor_eq, weight_factor_eq, cq_size_factor_eq, hd]
    congr 1
    ring
  · rw [pyInt_eq_floor (by positivity)]
    rw [hd]
    congr 1
    ring_nf

/-- C2: the claim says a terminal-status (delivered/canceled) order
rejects every status-update attempt from every role.  False: a courier
cancelling a delivered order succeeds, and the order's status changes
from delivered to canceled. -/
theorem c2_terminal_cancel_escape :
    (mkOrder 1 7 OrderStatus.delivered).status = .delivered ∧
    update_order_status [mkOrder 1 7 .delivered] 1 "canceled" 99 .courier =
      .ok ([mkOrder 1 7 .canceled], mkOrder 1 7 .canceled) := ⟨rfl, rfl⟩

/-- C2 (amended): for an order whose status is delivered or canceled,
every status-update attempt fails — except that a courier or admin
requesting canceled succeeds, and then the resulting status is
canceled.  No other transition out of a terminal state is possible. -/
theorem c2_terminal_amended (db : List OrderRow) (oid : ℕ) (s : String) (aid : ℕ)
    (role : UserRole) (o : OrderRow) (hf : find_order db oid = some o)
    (hterm : o.status = .delivered ∨ o.status = .canceled) :
    (is_committed (update_order_status db oid s aid role) = true ↔
      ((role = .courier ∨ role = .admin) ∧ parse_status s = some .canceled)) ∧
    (∀ db' o', update_order_status db oid s aid role = .ok (db', o') →
      o'.status = .canceled) := by
  have hcan : ∀ t, can_transition o.status t = false := by
    intro t; rcases hterm with h | h <;> simp [can_transition, h, ALLOWED_CHAIN]
  unfold update_order_status
  rw [hf]
  cases hp : parse_status s with
  | none => simp [is_committed]
  | some t =>
    cases role with
    | customer =>
      have h3 : ¬(o.status = OrderStatus.pending ∨ o.status = OrderStatus.assigned) := by
        rcases hterm with h | h <;> simp [h]
      by_cases h1 : o.user_id = aid <;> by_cases h2 : t = OrderStatus.canceled <;>
        simp [h1, h2, h3, is_committed]
    | merchant => simp [is_committed]
    | courier =>
      by_cases h2 : t = OrderStatus.canceled
      · subst h2; simp [is_committed, hcan]
      · simp [h2, hcan, is_committed]
    | admin =>
      by_cases h2 : t = OrderStatus.canceled
      · subst h2; simp [is_committed, hcan]
      · simp [h2, hcan, is_committed]

/-- C2 witness: the amended theorem applied to a one-row database
holding a delivered order, a courier actor and target "canceled". -/
theorem c2_terminal_amended_witness :
    (is_committed (update_order_status [mkOrder 1 7 .delivered] 1 "canceled" 99 .courier) = true ↔
      ((UserRole.courier = UserRole.courier ∨ UserRole.courier = UserRole.admin) ∧
        parse_status "canceled" = some .canceled)) ∧
    (∀ db' o', update_order_status [mkOrder 1 7 .delivered] 1 "canceled" 99 .courier =
      .ok (db', o') → o'.status = .canceled) :=
  c2_terminal_amended [mkOrder 1 7 .delivered] 1 "canceled" 99 .courier
    (mkOrder 1 7 .delivered) rfl (Or.inl rfl)

/-- C3: the claim says every accepted quote yields a price in
[4.5, 999.0].  False for the mounted quote operation: `compute_quote`
never clamps, and a 100-degree trip prices at 15459.73. -/
theorem c3_route_price_unbounded :
    ¬(4.5 ≤ (compute_quote q1).price ∧ (compute_quote q1).price ≤ 999 ∧
      5 ≤ (compute_quote q1).eta) := by
  rintro ⟨-, hp, -⟩
  rw [compute_quote_q1_price] at hp
  norm_num at hp

/-- C3 (amended): the §4.2 engine does keep price in [4.5, 999.0] and
eta ≥ 5; the mounted quote operation only guarantees eta ≥ 5 (in fact
≥ 10) — its price is unclamped. -/
theorem c3_engine_bounds_route_eta :
    (∀ (m : ℝ) (v it w tf : String) (wt L W H : ℝ),
      4.5 ≤ (estimate_from_miles m v it w tf wt L W H).price ∧
      (estimate_from_miles m v it w tf wt L W H).price ≤ 999 ∧
      5 ≤ (estimate_from_miles m v it w tf wt L W H).eta) ∧
    (∀ q : QuoteRequest, 5 ≤ (compute_quote q).eta) := by
  constructor
  · intro m v it w tf wt L W H
    have hp : (estimate_from_miles m v it w tf wt L W H).price =
        est_price m v it w tf wt L W H := rfl
    have he : (estimate_from_miles m v it w tf wt L W H).eta =
        est_eta m v w tf := rfl
    rw [hp, he]
    unfold est_price est_eta qclamp
    exact ⟨le_max_left _ _,
      max_le (by norm_num) (le_trans (min_le_left _ _) (by norm_num)), le_max_left _ _⟩
  · intro q
    have he : (compute_quote q).eta = max 10 (pyInt (haversine_like
        (q.pickup_lat, q.pickup_lng) (q.dropoff_lat, q.dropoff_lng) * 3)) := rfl
    rw [he]
    exact le_trans (by norm_num) (le_max_left _ _)

/-- C4: the claim says the returned tier is determined solely by the
final price through the Saver/Standard/Priority/"Pro Load" thresholds.
False for the mounted quote: at pickup = dropoff the price is 4.85
(< 12, so the thresholds would give "Saver") yet the tier returned is
"standard", derived from the item type. -/
theorem c4_tier_not_from_price :
    (compute_quote q0).tier ≠ tier_spec ((compute_quote q0).price) := by
  intro h
  have ht : (compute_quote q0).tier = "standard" := rfl
  rw [ht, compute_quote_q0_price] at h
  rw [show tier_spec (485 / 100) = "Saver" from by
    unfold tier_spec; rw [if_pos (by norm_num : (485 / 100 : ℝ) < 12)]] at h
  exact absurd h (by decide)

/-- C4 (amended): the mounted quote's tier depends only on the item
type (keyword matching), while the §4.2 engine's tier is determined
solely by the final price via the half-open thresholds of the claim. -/
theorem c4_tier_amended :
    (∀ q q' : QuoteRequest, q.item_type = q'.item_type →
      (compute_quote q).tier = (compute_quote q').tier) ∧
    (∀ (m : ℝ) (v it w tf : String) (wt L W H : ℝ),
      (estimate_from_miles m v it w tf wt L W H).tier =
        tier_spec ((estimate_from_miles m v it w tf wt L W H).price)) := by
  constructor
  · intro q q' h
    show item_tier q.item_type = item_tier q'.item_type
    rw [h]
  · intro m v it w tf wt L W H
    exact tier_of_eq_tier_spec _

/-- C4 witness: two requests with the same item type but different
coordinates (and hence different prices) get the same tier. -/
theorem c4_tier_amended_witness :
    (compute_quote q0).tier = (compute_quote q1).tier :=
  c4_tier_amended.1 q0 q1 rfl

/-- C5: for every database, order id, requested status string, actor
and role, the outcome of the status-update route matches the §4.3
contract exactly: NotFound when the id is absent, InvalidInput for a
non-enum status, customer Forbidden unless own order and target
canceled with Conflict outside pending/assigned, courier/admin
Conflict exactly when the table rejects (canceled always allowed),
merchant Forbidden. -/
theorem c5_status_contract (db : List OrderRow) (oid : ℕ) (s : String) (aid : ℕ)
    (role : UserRole) :
    outcome_of (update_order_status db oid s aid role) =
      spec_outcome (find_order db oid) (parse_status s) role aid := by
  unfold update_order_status spec_outcome
  cases hf : find_order db oid with
  | none => rfl
  | some o =>
    cases hp : parse_status s with
    | none => rfl
    | some t =>
      cases role with
      | customer =>
        by_cases h1 : o.user_id = aid <;>
        by_cases h2 : t = OrderStatus.canceled <;>
        by_cases h3 : o.status = OrderStatus.pending ∨ o.status = OrderStatus.assigned <;>
          simp [h1, h2, h3, outcome_of]
      | merchant => rfl
      | courier =>
        by_cases h2 : t = OrderStatus.canceled <;>
        by_cases h4 : can_transition o.status t <;>
          simp [h2, h4, outcome_of]
      | admin =>
        by_cases h2 : t = OrderStatus.canceled <;>
        by_cases h4 : can_transition o.status t <;>
          simp [h2, h4, outcome_of]

/-- C6: evaluating the tracking code on a room with members {1, 2}
where member 1 sends a message: the code delivers the echo to the
sender and then broadcasts to every member of the room — the sender
included — so the sender receives two messages, not one; member 2
receives exactly one. -/
theorem c6_sender_gets_echo_and_broadcast :
    inbound_deliveries [("7", [1, 2])] "7" 1 =
      [(1, "echo"), (1, "broadcast"), (2, "broadcast")] ∧
    count_to 1 (inbound_deliveries [("7", [1, 2])] "7" 1) = 2 ∧
    count_to 2 (inbound_deliveries [("7", [1, 2])] "7" 1) = 1 := ⟨rfl, rfl, rfl⟩

/-- C7: the claim says strictly greater miles give strictly greater
price and eta.  False: at 10000 and 20000 miles both prices clamp to
999, so the price is not strictly greater. -/
theorem c7_monotonicity_not_strict :
    ¬((estimate_from_miles 10000 "car" "general" "clear" "med" 0 12 8 6).price <
        (estimate_from_miles 20000 "car" "general" "clear" "med" 0 12 8 6).price ∧
      (estimate_from_miles 10000 "car" "general" "clear" "med" 0 12 8 6).eta <
        (estimate_from_miles 20000 "car" "general" "clear" "med" 0 12 8 6).eta) := by
  rintro ⟨hp, -⟩
  have e1 : (estimate_from_miles 10000 "car" "general" "clear" "med" 0 12 8 6).price =
      est_price 10000 "car" "general" "clear" "med" 0 12 8 6 := rfl
  have e2 : (estimate_from_miles 20000 "car" "general" "clear" "med" 0 12 8 6).price =
      est_price 20000 "car" "general" "clear" "med" 0 12 8 6 := rfl
  rw [e1, e2, est_price_car_eval, est_price_car_eval] at hp
  have b1 : (1000 : ℝ) ≤ (3.5 + 10000 * 1.45) * 1.15 * 1.075 + 1.25 := by norm_num
  have b2 : (1000 : ℝ) ≤ (3.5 + 20000 * 1.45) * 1.15 * 1.075 + 1.25 := by norm_num
  have r1 : (999.0 : ℝ) ≤ rnd2 ((3.5 + 10000 * 1.45) * 1.15 * 1.075 + 1.25) := by
    calc (999.0 : ℝ) ≤ 1000 := by norm_num
      _ = rnd2 1000 := rnd2_thousand.symm
      _ ≤ _ := rnd2_mono b1
  have r2 : (999.0 : ℝ) ≤ rnd2 ((3.5 + 20000 * 1.45) * 1.15 * 1.075 + 1.25) := by
    calc (999.0 : ℝ) ≤ 1000 := by norm_num
      _ = rnd2 1000 := rnd2_thousand.symm
      _ ≤ _ := rnd2_mono b2
  rw [qclamp_of_ge r1, qclamp_of_ge r2] at hp
  exact lt_irrefl _ hp

/-- C7 (amended): the §4.2 engine's price and eta are weakly monotone
in the miles value, all other inputs held fixed.  (Strictness fails at
the price clamp, at 2-decimal rounding and at the eta ceiling.) -/
theorem c7_weak_monotonicity (m1 m2 : ℝ) (v it w tf : String) (wt L W H : ℝ) (h : m1 ≤ m2) :
    est_price m1 v it w tf wt L W H ≤ est_price m2 v it w tf wt L W H ∧
    est_eta m1 v w tf ≤ est_eta m2 v w tf := by
  constructor
  · unfold est_price
    apply qclamp_mono
    apply rnd2_mono
    have hS := qe_size_factor_nonneg L W H
    have hI := item_mult_nonneg it
    have hW := le_of_lt (wx_mult_pos w tf)
    have hSurge : (0 : ℝ) ≤ SURGE := by norm_num [SURGE]
    have hbase : 3.5 + m1 * (1.45 * (vehicle_entry v).mult) ≤
        3.5 + m2 * (1.45 * (vehicle_entry v).mult) := by
      nlinarith [vehicle_mult_nonneg v]
    have h1 := mul_le_mul_of_nonneg_right hbase hS
    have h2 := mul_le_mul_of_nonneg_right h1 hI
    have h3 := mul_le_mul_of_nonneg_right h2 hW
    have h4 := mul_le_mul_of_nonneg_right h3 hSurge
    linarith
  · unfold est_eta
    rw [pyOr_zero, pyOr_zero]
    have hD : (0 : ℝ) < max 3 ((vehicle_entry v).speed / wx_mult w tf * 0.9) :=
      lt_of_lt_of_le (by norm_num) (le_max_left _ _)
    have hdiv : m1 / max 3 ((vehicle_entry v).speed / wx_mult w tf * 0.9) ≤
        m2 / max 3 ((vehicle_entry v).speed / wx_mult w tf * 0.9) := by gcongr
    exact max_le_max le_rfl (Int.ceil_mono (by linarith))

/-- C7 witness: the weak-monotonicity theorem at miles 0 ≤ 1 for a car
in clear weather and medium traffic. -/
theorem c7_weak_monotonicity_witness :
    est_price 0 "car" "general" "clear" "med" 0 12 8 6 ≤
      est_price 1 "car" "general" "clear" "med" 0 12 8 6 ∧
    est_eta 0 "car" "clear" "med" ≤ est_eta 1 "car" "clear" "med" :=
  c7_weak_monotonicity 0 1 "car" "general" "clear" "med" 0 12 8 6 zero_le_one

/-- C8: the claim says the longitude of every geocoded point lies in
[-150.0, -100.0).  False: a 50-character address whose ordinal sum is a
multiple of 5000 geocodes to longitude exactly -100, which is not
< -100. -/
theorem c8_longitude_endpoint :
    fake_geocode "dddddddddddddddddddddddddddddddddddddddddddddddddd" = some (30, -100) ∧ ¬((-100 : ℚ) < -100) := by
  constructor
  · have h : ord_total "dddddddddddddddddddddddddddddddddddddddddddddddddd" % 5000 = 0 := by decide
    have h2 : py_strip_empty "dddddddddddddddddddddddddddddddddddddddddddddddddd" = false := by decide
    simp [fake_geocode, h, h2]
  · norm_num

/-- C8 (amended): `fake_geocode` returns none exactly on empty or
whitespace-only input, is deterministic, and every returned point has
latitude in [30, 80) and longitude in (-150, -100] — the longitude
band is half-open at -150 and attains -100, not the reverse. -/
theorem c8_geocode_amended (s : String) :
    (fake_geocode s = none ↔ py_strip_empty s = true) ∧
    (∀ t, s = t → fake_geocode s = fake_geocode t) ∧
    (∀ la lo, fake_geocode s = some (la, lo) →
      30 ≤ la ∧ la < 80 ∧ -150 < lo ∧ lo ≤ -100) := by
  refine ⟨?_, fun t ht => by rw [ht], ?_⟩
  · unfold fake_geocode; split_ifs with h <;> simp [h]
  · intro la lo h
    unfold fake_geocode at h
    split_ifs at h
    simp only [Option.some.injEq, Prod.mk.injEq] at h
    obtain ⟨hla, hlo⟩ := h
    subst hla; subst hlo
    have h0 : (0 : ℚ) ≤ ((ord_total s % 5000 : ℕ) : ℚ) := by positivity
    have h1 : ((ord_total s % 5000 : ℕ) : ℚ) < 5000 := by
      have := Nat.mod_lt (ord_total s) (show 0 < 5000 by norm_num)
      exact_mod_cast this
    refine ⟨by linarith, by linarith, by linarith, by linarith⟩

/-- C8 witness: the amended theorem applied to the address "a"
(ordinal sum 97), giving the point (30.97, -100.97). -/
theorem c8_geocode_amended_witness :
    30 ≤ (3097 / 100 : ℚ) ∧ (3097 / 100 : ℚ) < 80 ∧
      (-150 : ℚ) < -10097 / 100 ∧ (-10097 / 100 : ℚ) ≤ -100 :=
  (c8_geocode_amended "a").2.2 (3097 / 100) (-10097 / 100) (by
    have h : ord_total "a" % 5000 = 97 := by decide
    have h2 : py_strip_empty "a" = false := by decide
    simp [fake_geocode, h, h2]
    norm_num)

/-- C9: on every successful status update, only the `status` field of
the matched order changes: owner, coordinates, vehicle, item type,
quantity, weight, dimensions, price, eta and creation time keep their
values, and every other row of the database is untouched. -/
theorem c9_status_only_change (db : List OrderRow) (oid : ℕ) (s : String) (aid : ℕ)
    (role : UserRole) (db' : List OrderRow) (o' : OrderRow)
    (h : update_order_status db oid s aid role = .ok (db', o')) :
    ∃ o st, find_order db oid = some o ∧ parse_status s = some st ∧
      o' = { o with status := st } ∧
      db' = db.map (fun p => if p.id = oid then { p with status := st } else p) ∧
      o'.user_id = o.user_id ∧ o'.pickup_lat = o.pickup_lat ∧
      o'.pickup_lng = o.pickup_lng ∧ o'.dropoff_lat = o.dropoff_lat ∧
      o'.dropoff_lng = o.dropoff_lng ∧ o'.vehicle = o.vehicle ∧
      o'.item_type = o.item_type ∧ o'.quantity = o.quantity ∧
      o'.weight_lb = o.weight_lb ∧ o'.length_in = o.length_in ∧
      o'.width_in = o.width_in ∧ o'.height_in = o.height_in ∧
      o'.price = o.price ∧ o'.eta_min = o.eta_min ∧
      o'.created_at = o.created_at := by
  unfold update_order_status at h
  cases hf : find_order db oid with
  | none => rw [hf] at h; exact absurd h (by simp)
  | some o =>
    rw [hf] at h
    cases hp : parse_status s with
    | none => rw [hp] at h; exact absurd h (by simp)
    | some t =>
      rw [hp] at h
      dsimp only at h
      refine ⟨o, t, rfl, rfl, ?_⟩
      cases role <;> split_ifs at h <;>
        simp only [Except.ok.injEq, Prod.mk.injEq] at h <;>
        obtain ⟨hdb, ho⟩ := h <;> subst hdb <;> subst ho <;> simp

/-- C9 witness: the frame theorem applied to an admin moving a pending
order to assigned. -/
theorem c9_status_only_change_witness :
    ∃ o st, find_order [mkOrder 1 7 .pending] 1 = some o ∧
      parse_status "assigned" = some st ∧
      mkOrder 1 7 .assigned = { o with status := st } ∧
      [mkOrder 1 7 .assigned] = [mkOrder 1 7 .pending].map
        (fun p => if p.id = 1 then { p with status := st } else p) ∧
      (mkOrder 1 7 .assigned).user_id = o.user_id ∧
      (mkOrder 1 7 .assigned).pickup_lat = o.pickup_lat ∧
      (mkOrder 1 7 .assigned).pickup_lng = o.pickup_lng ∧
      (mkOrder 1 7 .assigned).dropoff_lat = o.dropoff_lat ∧
      (mkOrder 1 7 .assigned).dropoff_lng = o.dropoff_lng ∧
      (mkOrder 1 7 .assigned).vehicle = o.vehicle ∧
      (mkOrder 1 7 .assigned).item_type = o.item_type ∧
      (mkOrder 1 7 .assigned).quantity = o.quantity ∧
      (mkOrder 1 7 .assigned).weight_lb = o.weight_lb ∧
      (mkOrder 1 7 .assigned).length_in = o.length_in ∧
      (mkOrder 1 7 .assigned).width_in = o.width_in ∧
      (mkOrder 1 7 .assigned).height_in = o.height_in ∧
      (mkOrder 1 7 .assigned).price = o.price ∧
      (mkOrder 1 7 .assigned).eta_min = o.eta_min ∧
      (mkOrder 1 7 .assigned).created_at = o.created_at :=
  c9_status_only_change [mkOrder 1 7 .pending] 1 "assigned" 9 .admin
    [mkOrder 1 7 .assigned] (mkOrder 1 7 .assigned) rfl

/-- C10: for every pair of points the mounted distance function
returns at least 0.5 miles, the reported miles of every quote are at
least 0.5, and the quote is exactly the pricing pipeline applied to
that floored distance. -/
theorem c10_min_half_mile (pu dopt : ℝ × ℝ) (q : QuoteRequest) :
    0.5 ≤ haversine_like pu dopt ∧ 0.5 ≤ (compute_quote q).miles ∧
      compute_quote q = compute_from_miles
        (haversine_like (q.pickup_lat, q.pickup_lng) (q.dropoff_lat, q.dropoff_lng)) q := by
  refine ⟨le_max_left _ _, ?_, rfl⟩
  show 0.5 ≤ rnd2 (haversine_like _ _)
  calc (0.5 : ℝ) = rnd2 0.5 := rnd2_half.symm
    _ ≤ rnd2 (haversine_like _ _) := rnd2_mono (le_max_left _ _)
